import Mathlib

/-!
Shallow embedding of the physics and input core of `src/game.js` (a single-file
HTML5 pool game).

Conventions of the embedding:

* Numbers are exact rationals (`ℚ`); JavaScript decimal literals such as
  `0.985` are read exactly.
* Calls to `Math.sqrt` are embedded through an explicit oracle `sq : ℚ → ℚ`
  supplied to the functions that call it; theorems that depend on actual
  square-root values take the needed facts about the oracle at the concretely
  occurring arguments as hypotheses (each such fact is true of the real square
  root).  `Math.cos`/`Math.sin` of the keyboard aim angle are likewise passed
  as the pair of their values.
* `update` can fault: its pocket-capture branch (src/game.js lines 635-659)
  evaluates `p.y < h / 2` and `p.x < w / 2` (lines 644-645), but `h` and `w`
  are not in scope inside `update` — they are local constants of
  `createPockets` and of `drawTable` only — so reaching the branch raises a
  `ReferenceError` in JavaScript.  The embedding returns
  `Except.error JsError.refErrorH` at exactly that program point; the source
  lines after it (the `inside` containment tests, `b.pocketed = true`, the
  cue-ball respot `setTimeout`) are unreachable and are therefore not modelled
  beyond the fault.
* DOM/status side effects (`setStatus`, `setPower` HUD writes) are pure no-ops
  for the ball state; the numeric part of `setPower` (clamping to [0,1]) is
  kept where an embedded function records the resulting power.
-/

deriving instance DecidableEq for Except

namespace PoolGame

/-- The runtime fault of `update`: its capture branch reads the identifier `h`
(src/game.js line 644), which is undefined in the scope of `update`, raising a
JavaScript ReferenceError. -/
inductive JsError where
  | refErrorH
deriving DecidableEq

/-- TABLE.width (= LOGICAL_WIDTH). -/
def width : ℚ := 800

/-- TABLE.height (= LOGICAL_HEIGHT). -/
def height : ℚ := 400

/-- TABLE.rail. -/
def rail : ℚ := 22

/-- TABLE.pocketRadius. -/
def pocketRadius : ℚ := 18

/-- TABLE.ballRadius. -/
def ballRadius : ℚ := 10

/-- TABLE.friction. -/
def friction : ℚ := 0.985

/-- TABLE.stopEpsilon. -/
def stopEpsilon : ℚ := 0.03

/-- One pocket record as produced by `createPockets`. -/
structure Pocket where
  x : ℚ
  y : ℚ
  mouthX1 : ℚ
  mouthY1 : ℚ
  mouthX2 : ℚ
  mouthY2 : ℚ
  rCapture : ℚ
  rFunnel : ℚ
deriving DecidableEq

/-- `createPockets` (src/game.js lines 71-155): the six pocket records, in
source order (top-left, top-middle, top-right, bottom-left, bottom-middle,
bottom-right). -/
def createPockets : List Pocket :=
  let w := width
  let h := height
  let br := ballRadius
  let basePocket := pocketRadius
  let rCap := basePocket + br * 0.4
  let rFun := rCap + br * 1.2
  let cornerOffset := rail * 0.8
  let sideInset := rail * 0.55
  [ { x := rail - cornerOffset, y := rail - cornerOffset,
      mouthX1 := rail + br * 0.5, mouthY1 := rail,
      mouthX2 := rail, mouthY2 := rail + br * 0.5,
      rCapture := rCap, rFunnel := rFun },
    { x := w / 2, y := rail - sideInset,
      mouthX1 := w / 2 - basePocket, mouthY1 := rail,
      mouthX2 := w / 2 + basePocket, mouthY2 := rail,
      rCapture := rCap, rFunnel := rFun },
    { x := w - (rail - cornerOffset), y := rail - cornerOffset,
      mouthX1 := w - rail, mouthY1 := rail + br * 0.5,
      mouthX2 := w - rail - br * 0.5, mouthY2 := rail,
      rCapture := rCap, rFunnel := rFun },
    { x := rail - cornerOffset, y := h - (rail - cornerOffset),
      mouthX1 := rail, mouthY1 := h - rail - br * 0.5,
      mouthX2 := rail + br * 0.5, mouthY2 := h - rail,
      rCapture := rCap, rFunnel := rFun },
    { x := w / 2, y := h - (rail - sideInset),
      mouthX1 := w / 2 + basePocket, mouthY1 := h - rail,
      mouthX2 := w / 2 - basePocket, mouthY2 := h - rail,
      rCapture := rCap, rFunnel := rFun },
    { x := w - (rail - cornerOffset), y := h - (rail - cornerOffset),
      mouthX1 := w - rail - br * 0.5, mouthY1 := h - rail,
      mouthX2 := w - rail, mouthY2 := h - rail - br * 0.5,
      rCapture := rCap, rFunnel := rFun } ]

/-- `const pockets = createPockets()` (src/game.js line 60). -/
def pockets : List Pocket := createPockets

/-- `distPointToSegmentSq` (src/game.js lines 158-170).  The JavaScript
`segLenSq = vx*vx + vy*vy || 1` takes 1 when the squared length is 0. -/
def distPointToSegmentSq (px py x1 y1 x2 y2 : ℚ) : ℚ :=
  let vx := x2 - x1
  let vy := y2 - y1
  let wx := px - x1
  let wy := py - y1
  let segLenSq0 := vx * vx + vy * vy
  let segLenSq := if segLenSq0 = 0 then 1 else segLenSq0
  let t := max 0 (min 1 ((wx * vx + wy * vy) / segLenSq))
  let projX := x1 + t * vx
  let projY := y1 + t * vy
  let dx := px - projX
  let dy := py - projY
  dx * dx + dy * dy

/-- One entry of the `balls` array (src/game.js `createBall`, lines 219-230). -/
structure Ball where
  x : ℚ
  y : ℚ
  vx : ℚ
  vy : ℚ
  r : ℚ
  color : String
  isCue : Bool
  pocketed : Bool
deriving DecidableEq

/-- `createBall` (src/game.js lines 219-230). -/
def createBall (x y : ℚ) (color : String) (isCue : Bool) : Ball :=
  { x := x, y := y, vx := 0, vy := 0, r := ballRadius,
    color := color, isCue := isCue, pocketed := false }

/-- The rack `colors` array (src/game.js lines 240-250). -/
def rackColors : List String :=
  ["#f97316", "#eab308", "#22c55e", "#38bdf8", "#a855f7",
   "#f97316", "#22c55e", "#38bdf8", "#ef4444"]

/-- Number of rack balls created before row `row` starts (the value of the
counter `c` of `setupBalls` when row `row` begins). -/
def rackRowStart (row : ℕ) : ℕ := ((List.range row).map (fun r => 5 - r)).sum

/-- `setupBalls` (src/game.js lines 232-268), the ball list it builds: the cue
ball first, then 5 rows of `5 - row` balls each.  `resetTable` (line 413)
delegates to this function. -/
def setupBalls : List Ball :=
  let cue := createBall (width * 0.25) (height / 2) "#ffffff" true
  let startX := width * 0.65
  let startY := height / 2
  let gap := ballRadius * 2 + 1.5
  let rows : ℕ := 5
  let rack := (List.range rows).flatMap (fun row =>
    let count : ℕ := rows - row
    let offsetX : ℚ := (row : ℚ) * gap
    let offsetY : ℚ := ((count : ℚ) - 1) * ballRadius
    (List.range count).map (fun i =>
      let ci : ℕ := (rackRowStart row + i) % rackColors.length
      createBall (startX + offsetX)
        (startY - offsetY / 2 + (i : ℚ) * (ballRadius * 2))
        (rackColors.getD ci "")
        false))
  cue :: rack

/-- `allBallsStopped` (src/game.js lines 180-190). -/
def allBallsStopped (bs : List Ball) : Bool :=
  !(bs.any (fun b =>
    !b.pocketed && (decide (|b.vx| > stopEpsilon) || decide (|b.vy| > stopEpsilon))))

/-- Playable-area bound `minX = TABLE.rail + TABLE.ballRadius` (src/game.js
line 468). -/
def minX : ℚ := rail + ballRadius

/-- `maxX = TABLE.width - TABLE.rail - TABLE.ballRadius` (line 469). -/
def maxX : ℚ := width - rail - ballRadius

/-- `minY = TABLE.rail + TABLE.ballRadius` (line 470). -/
def minY : ℚ := rail + ballRadius

/-- `maxY = TABLE.height - TABLE.rail - TABLE.ballRadius` (line 471). -/
def maxY : ℚ := height - rail - ballRadius

/-- `mouthMargin = TABLE.ballRadius * 0.6` (line 482). -/
def mouthMargin : ℚ := ballRadius * 0.6

/-- `mouthMarginSq` (line 483). -/
def mouthMarginSq : ℚ := mouthMargin * mouthMargin

/-- The four wall identifiers passed to `isInMouthForSide`. -/
inductive Side where
  | left
  | right
  | top
  | bottom
deriving DecidableEq

/-- The per-side orientation test nested in `isInMouthForSide`
(src/game.js lines 497-521): the mouth segment must be axis-aligned in the
matching direction and its fixed coordinate must equal the rail coordinate of
that side to within `1e-3`. -/
def sideMatch (s : Side) (p : Pocket) : Bool :=
  match s with
  | Side.top => decide (p.mouthY1 = p.mouthY2 ∧ |p.mouthY1 - rail| < 1/1000)
  | Side.bottom =>
      decide (p.mouthY1 = p.mouthY2 ∧ |p.mouthY1 - (height - rail)| < 1/1000)
  | Side.left => decide (p.mouthX1 = p.mouthX2 ∧ |p.mouthX1 - rail| < 1/1000)
  | Side.right =>
      decide (p.mouthX1 = p.mouthX2 ∧ |p.mouthX1 - (width - rail)| < 1/1000)

/-- `isInMouthForSide` (src/game.js lines 485-525): true when the ball lies
within `mouthMargin` of some pocket mouth segment whose orientation matches
the given side. -/
def isInMouthForSide (b : Ball) (s : Side) : Bool :=
  pockets.any (fun p =>
    decide (distPointToSegmentSq b.x b.y p.mouthX1 p.mouthY1 p.mouthX2 p.mouthY2
      ≤ mouthMarginSq) && sideMatch s p)

/-- The integration step of `update` (src/game.js lines 473-478): each
non-pocketed ball moves by exactly its velocity; `dtFactor` is not used. -/
def integrate (b : Ball) : Ball :=
  if b.pocketed then b else { b with x := b.x + b.vx, y := b.y + b.vy }

/-- The left- and right-wall blocks of the rail-collision step (src/game.js
lines 530-544), in source order: a crossed wall reflects `vx` and clamps `x`
to the bound, unless the ball lies in a pocket mouth for that wall. -/
def railStepX (b : Ball) : Ball :=
  let b1 := if b.x < minX then
      (if isInMouthForSide b Side.left then b
       else { b with x := minX, vx := -b.vx })
    else b
  if b1.x > maxX then
    (if isInMouthForSide b1 Side.right then b1
     else { b1 with x := maxX, vx := -b1.vx })
  else b1

/-- The top- and bottom-wall blocks of the rail-collision step (src/game.js
lines 546-560), run after the horizontal blocks and reading the coordinates
they produced. -/
def railStepY (b : Ball) : Ball :=
  let b1 := if b.y < minY then
      (if isInMouthForSide b Side.top then b
       else { b with y := minY, vy := -b.vy })
    else b
  if b1.y > maxY then
    (if isInMouthForSide b1 Side.bottom then b1
     else { b1 with y := maxY, vy := -b1.vy })
  else b1

/-- The rail-collision step of `update` for one ball (src/game.js lines
527-561): pocketed balls are skipped; the four walls are processed in source
order left, right, top, bottom, each test reading the coordinates as already
updated by the previous ones. -/
def railStep (b : Ball) : Ball :=
  if b.pocketed then b else railStepY (railStepX b)

/-- The body of the pairwise collision resolution (src/game.js lines 570-594)
for one ball pair, given `dist`, the value `Math.sqrt(dx*dx + dy*dy)` computed
at line 572: if the centers are strictly closer than the radius sum (and not
coincident), separate the balls equally along the normal and, if they are
approaching (`rel < 0`), exchange the normal velocity components by an
equal-and-opposite impulse. -/
def collidePair (dist : ℚ) (a b : Ball) : Ball × Ball :=
  let dx := b.x - a.x
  let dy := b.y - a.y
  let minDist := a.r + b.r
  if 0 < dist ∧ dist < minDist then
    let nx := dx / dist
    let ny := dy / dist
    let overlap := (minDist - dist) / 2
    let a1 := { a with x := a.x - nx * overlap, y := a.y - ny * overlap }
    let b1 := { b with x := b.x + nx * overlap, y := b.y + ny * overlap }
    let dvx := b1.vx - a1.vx
    let dvy := b1.vy - a1.vy
    let rel := dvx * nx + dvy * ny
    if rel < 0 then
      let impulse := -rel
      let ix := impulse * nx
      let iy := impulse * ny
      ({ a1 with vx := a1.vx - ix, vy := a1.vy - iy },
       { b1 with vx := b1.vx + ix, vy := b1.vy + iy })
    else (a1, b1)
  else (a, b)

/-- One iteration of the double collision loop (src/game.js lines 564-596):
a pair with either member pocketed is skipped (`continue`), otherwise
`collidePair` runs on the distance `sq` of the squared center distance. -/
def pairStep (sq : ℚ → ℚ) (a b : Ball) : Ball × Ball :=
  if a.pocketed || b.pocketed then (a, b)
  else collidePair
    (sq ((b.x - a.x) * (b.x - a.x) + (b.y - a.y) * (b.y - a.y))) a b

/-- The inner `j` loop of the collision pass: ball `a` (index `i`) is resolved
against every later ball in order, accumulating its own updates. -/
def collideWithAll (sq : ℚ → ℚ) (a : Ball) : List Ball → Ball × List Ball
  | [] => (a, [])
  | b :: tl =>
    let ab := pairStep sq a b
    let rest := collideWithAll sq ab.1 tl
    (rest.1, ab.2 :: rest.2)

/-- The outer `i` loop of the collision pass, with an explicit frame counter
(the recursion is on the array length, which `collideWithAll` preserves). -/
def collidePassGo (sq : ℚ → ℚ) : ℕ → List Ball → List Ball
  | 0, l => l
  | _ + 1, [] => []
  | n + 1, a :: tl =>
    let r := collideWithAll sq a tl
    r.1 :: collidePassGo sq n r.2

/-- The outer `i` loop of the collision pass (src/game.js lines 564-596). -/
def collidePass (sq : ℚ → ℚ) (bs : List Ball) : List Ball :=
  collidePassGo sq bs.length bs

/-- The pocket loop for one non-pocketed ball (src/game.js lines 603-688) over
the remaining pockets.  Per pocket: the funnel block (lines 623-632) may add a
small toward-center bias to the velocity; then the capture test (line 635): if
`dist + b.r <= p.rCapture`, execution reaches line 644, `const isTop = p.y <
h / 2`, where `h` is undefined in `update` — the embedding faults there.  The
division guard `dx / (dist || 1)` of lines 607-608 is the `if dist = 0` case;
`Math.sqrt(...) || 0` of line 606 is the identity on the non-negative sqrt and
is absorbed into the oracle `sq`. -/
def pocketLoop (sq : ℚ → ℚ) : List Pocket → Ball → Except JsError Ball
  | [], b => Except.ok b
  | p :: rest, b =>
    let dx := p.x - b.x
    let dy := p.y - b.y
    let dist := sq (dx * dx + dy * dy)
    let toCenterX := dx / (if dist = 0 then 1 else dist)
    let toCenterY := dy / (if dist = 0 then 1 else dist)
    let mouthMidX := (p.mouthX1 + p.mouthX2) / 2
    let mouthMidY := (p.mouthY1 + p.mouthY2) / 2
    let nx := p.x - mouthMidX
    let ny := p.y - mouthMidY
    let inwardDot := (b.x - mouthMidX) * nx + (b.y - mouthMidY) * ny
    let b1 := if dist ≤ p.rFunnel + b.r ∧ inwardDot < 0 then
        (if dist > p.rCapture then
          (if b.vx * toCenterX + b.vy * toCenterY > 0 then
            { b with vx := b.vx + toCenterX * 0.04,
                     vy := b.vy + toCenterY * 0.04 }
          else b)
        else b)
      else b
    if dist + b1.r ≤ p.rCapture then Except.error JsError.refErrorH
    else pocketLoop sq rest b1

/-- The pocket phase of `update` (src/game.js lines 598-691): each
non-pocketed ball runs the pocket loop; pocketed balls are skipped (line 601).
A thrown ReferenceError aborts the whole update. -/
def pocketPhase (sq : ℚ → ℚ) : List Ball → Except JsError (List Ball)
  | [] => Except.ok []
  | b :: rest =>
    match (if b.pocketed then Except.ok b else pocketLoop sq pockets b) with
    | Except.error e => Except.error e
    | Except.ok b1 =>
      match pocketPhase sq rest with
      | Except.error e => Except.error e
      | Except.ok rest1 => Except.ok (b1 :: rest1)

/-- The friction-and-stop step of `update` for one ball (src/game.js lines
697-707), given `f`, the value `Math.pow(TABLE.friction, dtFactor)` of line
699: velocity is scaled by `f` and each component of magnitude below
`stopEpsilon` snaps to exactly 0. -/
def frictionStep (f : ℚ) (b : Ball) : Ball :=
  if b.pocketed then b
  else
    let vx := b.vx * f
    let vy := b.vy * f
    { b with vx := if |vx| < stopEpsilon then 0 else vx,
             vy := if |vy| < stopEpsilon then 0 else vy }

/-- `update` (src/game.js lines 467-718) acting on the ball list, with the
sqrt oracle `sq` and the friction factor `f = Math.pow(TABLE.friction,
dtFactor)`.  Phases in source order: integration, rails, pairwise collisions,
pocket funnel/capture (which can fault on the undefined `h`), friction and
stop-snapping.  Status/HUD writes are side-effect free for this state and are
omitted. -/
def update (sq : ℚ → ℚ) (f : ℚ) (bs : List Ball) : Except JsError (List Ball) :=
  let bs1 := bs.map integrate
  let bs2 := bs1.map railStep
  let bs3 := collidePass sq bs2
  match pocketPhase sq bs3 with
  | Except.error e => Except.error e
  | Except.ok bs4 => Except.ok (bs4.map (frictionStep f))

/-- `n` repeated frames: `update` iterated, propagating a thrown error. -/
def iterateUpdate (sq : ℚ → ℚ) (f : ℚ) : ℕ → List Ball → Except JsError (List Ball)
  | 0, bs => Except.ok bs
  | n + 1, bs =>
    match update sq f bs with
    | Except.error e => Except.error e
    | Except.ok bs1 => iterateUpdate sq f n bs1

/-- The frame loop's time-scale clamp (src/game.js line 848):
`Math.max(0.25, Math.min(2.5, delta / (1000 * BASE_DT)))` with
`BASE_DT = 1/60`. -/
def dtFactorOf (delta : ℚ) : ℚ :=
  max 0.25 (min 2.5 (delta / (1000 * (1 / 60))))

/-- Every non-pocketed ball has velocity exactly (0,0). -/
def allVelZero (bs : List Ball) : Prop :=
  ∀ b ∈ bs, b.pocketed = false → b.vx = 0 ∧ b.vy = 0

/-- Pointwise relation between a ball and its image under an update step:
a pocketed ball is left entirely unchanged, and no ball's pocketed flag
changes. -/
def BallKept (a b : Ball) : Prop :=
  (a.pocketed = true → b = a) ∧ b.pocketed = a.pocketed

/-- A ball list and its image under an update: pocketed input balls are left
entirely unchanged (hence excluded from every phase), and no ball's pocketed
flag changes. -/
def PocketedPreserved (bs bs1 : List Ball) : Prop :=
  List.Forall₂ BallKept bs bs1

/-- `setPower` clamping (src/game.js lines 200-206). -/
def clampPower (p : ℚ) : ℚ := max 0 (min 1 p)

/-- Result of releasing an aiming gesture: cue ball, HUD power after
`setPower`, and whether a shot started. -/
structure ShotResult where
  cue : Ball
  power : ℚ
  shotInProgress : Bool
deriving DecidableEq

/-- `onPointerUp` (src/game.js lines 315-343), its effect on the cue ball,
the power display, and the shot flag.  `pullLen` is the value
`len(pullX, pullY) = Math.sqrt(pullX*pullX + pullY*pullY)` (line 320); `norm`
(line 175) divides by `len || 1`, i.e. by 1 when the length is 0 (the length
of `(-pullX, -pullY)` equals `pullLen`). -/
def onPointerUpCore (pullLen : ℚ) (aimStartX aimStartY posX posY : ℚ)
    (cue : Ball) : ShotResult :=
  let pullX := posX - aimStartX
  let pullY := posY - aimStartY
  let pullDist := min pullLen 160
  if pullDist > 4 ∧ cue.pocketed = false then
    let l := if pullLen = 0 then 1 else pullLen
    let dirX := -pullX / l
    let dirY := -pullY / l
    let maxSpeed : ℚ := 14
    let powerRatio := pullDist / 160
    let speed := powerRatio * maxSpeed
    { cue := { cue with vx := cue.vx + dirX * speed, vy := cue.vy + dirY * speed },
      power := clampPower powerRatio,
      shotInProgress := true }
  else
    { cue := cue, power := clampPower 0, shotInProgress := false }

/-- Result of a Space keypress: cue ball, the `keyboardPower` variable, the
HUD power, and the shot flag. -/
structure KeyShotResult where
  cue : Ball
  keyboardPower : ℚ
  power : ℚ
  shotInProgress : Bool
deriving DecidableEq

/-- The Space branch of `onKeyDown` (src/game.js lines 368-387): rejected
while balls move, a shot is in progress, or the cue ball is pocketed;
otherwise a keyboard power of at most 0 defaults to 0.4, and the impulse
`keyboardPower * 14` along `(Math.cos aimAngle, Math.sin aimAngle)` — passed
here as the pair `(cosA, sinA)` — is added to the cue ball's velocity.
`power0` is the incoming `gameState.currentPower`. -/
def spaceShot (cosA sinA keyboardPower : ℚ) (bs : List Ball)
    (shotInProgress : Bool) (cue : Ball) (power0 : ℚ) : KeyShotResult :=
  if !allBallsStopped bs || shotInProgress || cue.pocketed then
    { cue := cue, keyboardPower := keyboardPower, power := power0,
      shotInProgress := shotInProgress }
  else
    let kp := if keyboardPower ≤ 0 then 0.4 else keyboardPower
    let maxSpeed : ℚ := 14
    let speed := kp * maxSpeed
    { cue := { cue with vx := cue.vx + cosA * speed, vy := cue.vy + sinA * speed },
      keyboardPower := kp,
      power := clampPower kp,
      shotInProgress := true }

/-! Concrete states and square-root oracles used by witnesses and
counterexamples.  Each oracle agrees with the real square root at every input
the corresponding run actually consults it on with a constraint attached. -/

/-- A ball one frame away from gliding through the top-middle pocket mouth:
after integration it sits at (400, 20), inside the mouth margin, 10.1 units
from the pocket drop center (400, 9.9), so `dist + r = 20.1 ≤ rCapture = 22`
holds. -/
def c1Ball : Ball :=
  { x := 400, y := 24, vx := 0, vy := -4, r := 10,
    color := "#f97316", isCue := false, pocketed := false }

/-- Square-root oracle for the `c1Ball` run: exact on the one capture-relevant
squared distance 102.01 (sqrt 10.1), and large (400, an overestimate that is
still sound for the far-away pocket whose true root is about 395.9) elsewhere. -/
def sqC1 : ℚ → ℚ := fun q => if q = 10201/100 then 101/10 else 400

/-- A ball one frame away from the bottom-middle pocket: after integration at
(400, 380), 10.1 units from the drop center (400, 390.1). -/
def c6Ball : Ball :=
  { x := 400, y := 376, vx := 0, vy := 4, r := 10,
    color := "#eab308", isCue := false, pocketed := false }

/-- Oracle for the `c6Ball` run, exact at the capture-relevant input. -/
def sqC6 : ℚ → ℚ := fun q => if q = 10201/100 then 101/10 else 400

/-- The cue ball one frame away from the top-middle pocket: after integration
at (406, 20), squared distance 138.01 to the drop center, true root about
11.748, so capture (11.748 + 10 ≤ 22) holds. -/
def c8Cue : Ball :=
  { x := 406, y := 24, vx := 0, vy := -4, r := 10,
    color := "#ffffff", isCue := true, pocketed := false }

/-- Oracle for the `c8Cue` run: 11.75 at the capture-relevant input (an upper
bound on the true root 11.7477..., sound for the `≤ 12` bound used), large
elsewhere. -/
def sqC8 : ℚ → ℚ := fun q => if q = 13801/100 then 47/4 else 400

/-- A resting cue ball at the respot point, far from every pocket. -/
def calmBall : Ball :=
  { x := 200, y := 200, vx := 0, vy := 0, r := 10,
    color := "#ffffff", isCue := true, pocketed := false }

/-- Oracle for runs of `calmBall`-style states: constantly 400, a sound
stand-in for every square root that only needs to be larger than 44. -/
def sqCalm : ℚ → ℚ := fun _ => 400

/-- A resting ball left of the playable area (e.g. placed there by a mouth
pass-through), used to show an all-stopped state stays all-stopped even when
`update` still clamps a position. -/
def c6WBall : Ball :=
  { x := 10, y := 200, vx := 0, vy := 0, r := 10,
    color := "#38bdf8", isCue := false, pocketed := false }

/-- The image of `c6WBall` under one `update`: clamped to the left bound with
velocity still exactly (0, 0). -/
def c6WBall1 : Ball :=
  { x := 32, y := 200, vx := 0, vy := 0, r := 10,
    color := "#38bdf8", isCue := false, pocketed := false }

/-- A pocketed object ball carrying (physically stale) velocity, used to
exhibit that pocketed balls are excluded from every phase of `update`. -/
def pkBall : Ball :=
  { x := 100, y := 100, vx := 3, vy := 4, r := 10,
    color := "#22c55e", isCue := false, pocketed := true }

/-- Collision-pair witnesses: two overlapping balls 15 units apart (a 9-12-15
right triangle), the first moving toward the second. -/
def cwA : Ball :=
  { x := 0, y := 0, vx := 2, vy := 0, r := 10,
    color := "#38bdf8", isCue := false, pocketed := false }

/-- Second ball of the collision-pair witness. -/
def cwB : Ball :=
  { x := 12, y := 9, vx := 0, vy := 0, r := 10,
    color := "#a855f7", isCue := false, pocketed := false }

/-- Oracle for the collision-pair witness: exact at the one consulted input
(15 * 15 = 225). -/
def sqC2 : ℚ → ℚ := fun q => if q = 225 then 15 else 400

/-- A ball outside the left playable bound, for the rail-clamp witness. -/
def c5Ball : Ball :=
  { x := -5, y := 200, vx := -1, vy := 0, r := 10,
    color := "#ef4444", isCue := false, pocketed := false }

/-- A moving, non-pocketed ball for the integration witness. -/
def c4Ball : Ball :=
  { x := 300, y := 100, vx := 5, vy := -7, r := 10,
    color := "#f97316", isCue := false, pocketed := false }

/-- A resting cue ball used by the input-mapper witnesses. -/
def cue7 : Ball :=
  { x := 200, y := 200, vx := 0, vy := 0, r := 10,
    color := "#ffffff", isCue := true, pocketed := false }

/-- A resting cue ball used by the keyboard-shot witness. -/
def cue10 : Ball :=
  { x := 200, y := 200, vx := 0, vy := 0, r := 10,
    color := "#ffffff", isCue := true, pocketed := false }

/-! ## Theorems -/

/-- No pocket mouth segment is vertical at the left rail line: the corner
mouths are diagonal (their endpoints differ in both coordinates) and the side
mouths are horizontal, so `isInMouthForSide` can never report a left-wall
mouth. -/
theorem sideMatch_left_eq_false (p : Pocket) (hp : p ∈ pockets) :
    sideMatch Side.left p = false := by
  simp only [pockets, createPockets] at hp
  fin_cases hp <;>
    norm_num [sideMatch, rail, ballRadius, width, height, pocketRadius]

/-- No pocket mouth segment is vertical at the right rail line. -/
theorem sideMatch_right_eq_false (p : Pocket) (hp : p ∈ pockets) :
    sideMatch Side.right p = false := by
  simp only [pockets, createPockets] at hp
  fin_cases hp <;>
    norm_num [sideMatch, rail, ballRadius, width, height, pocketRadius]

/-- For every ball position, the left-wall mouth test is false. -/
theorem mouth_left_false (b : Ball) : isInMouthForSide b Side.left = false := by
  rw [isInMouthForSide, List.any_eq_false]
  intro p hp
  simp [sideMatch_left_eq_false p hp]

/-- For every ball position, the right-wall mouth test is false. -/
theorem mouth_right_false (b : Ball) : isInMouthForSide b Side.right = false := by
  rw [isInMouthForSide, List.any_eq_false]
  intro p hp
  simp [sideMatch_right_eq_false p hp]

/-- The vertical wall blocks leave the y coordinate unchanged. -/
theorem railStepX_y (b : Ball) : (railStepX b).y = b.y := by
  simp only [railStepX]
  split_ifs <;> rfl

/-- The horizontal wall blocks leave the x coordinate unchanged. -/
theorem railStepY_x (b : Ball) : (railStepY b).x = b.x := by
  simp only [railStepY]
  split_ifs <;> rfl

/-- Because no mouth matches the left or right wall, the horizontal blocks
always clamp: afterwards the x coordinate lies in the playable range. -/
theorem railStepX_range (b : Ball) :
    minX ≤ (railStepX b).x ∧ (railStepX b).x ≤ maxX := by
  simp only [railStepX, mouth_left_false, mouth_right_false, Bool.false_eq_true,
    if_false]
  split_ifs with h1 h2 h2 <;> constructor
  all_goals norm_num [minX, maxX, width, rail, ballRadius] at *
  all_goals linarith

/-- Case analysis of the vertical wall blocks: a ball that is still beyond
the top (resp. bottom) bound afterwards was left untouched because it sits in
a matching pocket mouth. -/
theorem railStepY_cases (b : Ball) :
    ((railStepY b).y < minY →
      railStepY b = b ∧ isInMouthForSide b Side.top = true) ∧
    (maxY < (railStepY b).y →
      railStepY b = b ∧ isInMouthForSide b Side.bottom = true) := by
  have hmm : minY ≤ maxY := by norm_num [minY, maxY, height, rail, ballRadius]
  simp only [railStepY]
  split_ifs with c1 c2 c3 c4
  all_goals refine ⟨fun hy => ?_, fun hy => ?_⟩
  all_goals try exact ⟨rfl, by assumption⟩
  all_goals exfalso
  all_goals norm_num [minY, maxY, height, rail, ballRadius] at *
  all_goals linarith

/-- C5: after the rail-collision step, a non-pocketed ball's x coordinate
lies in [rail+ballRadius, width-rail-ballRadius] and its y coordinate in
[rail+ballRadius, height-rail-ballRadius], except that a coordinate may
remain beyond a bound when the ball (at its final position) lies within
0.6·ballRadius of a pocket mouth segment whose orientation matches the
crossed side — in that mouth case reflection and clamping were skipped.  (For
the left and right walls the mouth test is in fact never satisfied, because
the corner mouth segments are diagonal, so those implications are vacuously
strengthened to in-range; balls pass out of bounds only across the top and
bottom walls at the side-pocket mouths.) -/
theorem c5_rail_bounds (b : Ball) (hb : b.pocketed = false) :
    ((railStep b).x < minX → isInMouthForSide (railStep b) Side.left = true) ∧
    (maxX < (railStep b).x → isInMouthForSide (railStep b) Side.right = true) ∧
    ((railStep b).y < minY → isInMouthForSide (railStep b) Side.top = true) ∧
    (maxY < (railStep b).y → isInMouthForSide (railStep b) Side.bottom = true) := by
  have hrw : railStep b = railStepY (railStepX b) := by
    rw [railStep, if_neg (by simp [hb])]
  have hx := railStepX_range b
  have hy := railStepY_cases (railStepX b)
  refine ⟨?_, ?_, ?_, ?_⟩ <;> rw [hrw]
  · rw [railStepY_x]
    intro h
    exact absurd h (not_lt.mpr hx.1)
  · rw [railStepY_x]
    intro h
    exact absurd h (not_lt.mpr hx.2)
  · intro h
    rcases hy.1 h with ⟨he, hm⟩
    rw [he]
    exact hm
  · intro h
    rcases hy.2 h with ⟨he, hm⟩
    rw [he]
    exact hm

/-- Witness for C5: a ball beyond the left bound is clamped back into range,
so all four implications hold at it. -/
theorem c5_rail_bounds_witness :
    ((railStep c5Ball).x < minX →
      isInMouthForSide (railStep c5Ball) Side.left = true) ∧
    (maxX < (railStep c5Ball).x →
      isInMouthForSide (railStep c5Ball) Side.right = true) ∧
    ((railStep c5Ball).y < minY →
      isInMouthForSide (railStep c5Ball) Side.top = true) ∧
    (maxY < (railStep c5Ball).y →
      isInMouthForSide (railStep c5Ball) Side.bottom = true) :=
  c5_rail_bounds c5Ball rfl

/-- C2: the pairwise-collision step on a pair of distinct non-pocketed balls
whose center distance `dist` is strictly between 0 and the radius sum:
the vector sum of the two velocities is always preserved; when the pair is
approaching (`rel < 0`) the two normal velocity components are exactly
exchanged; when it is separating (`rel ≥ 0`) both velocities are untouched.
`dist` is the value of `Math.sqrt` on the squared center distance, `nx, ny`
the collision normal and `rel` the closing normal velocity, each named by its
defining equation from src/game.js lines 570-584. -/
theorem c2_pair_collision (sq : ℚ → ℚ) (a b : Ball) (dist nx ny rel : ℚ)
    (hdist : dist = sq ((b.x - a.x) * (b.x - a.x) + (b.y - a.y) * (b.y - a.y)))
    (hsq : dist * dist = (b.x - a.x) * (b.x - a.x) + (b.y - a.y) * (b.y - a.y))
    (hpa : a.pocketed = false) (hpb : b.pocketed = false)
    (h0 : 0 < dist) (hlt : dist < a.r + b.r)
    (hnx : nx = (b.x - a.x) / dist) (hny : ny = (b.y - a.y) / dist)
    (hrel : rel = (b.vx - a.vx) * nx + (b.vy - a.vy) * ny) :
    ((pairStep sq a b).1.vx + (pairStep sq a b).2.vx = a.vx + b.vx ∧
     (pairStep sq a b).1.vy + (pairStep sq a b).2.vy = a.vy + b.vy) ∧
    (rel < 0 →
      (pairStep sq a b).1.vx * nx + (pairStep sq a b).1.vy * ny
        = b.vx * nx + b.vy * ny ∧
      (pairStep sq a b).2.vx * nx + (pairStep sq a b).2.vy * ny
        = a.vx * nx + a.vy * ny) ∧
    (0 ≤ rel →
      (pairStep sq a b).1.vx = a.vx ∧ (pairStep sq a b).1.vy = a.vy ∧
      (pairStep sq a b).2.vx = b.vx ∧ (pairStep sq a b).2.vy = b.vy) := by
  subst hnx hny hrel
  have hne : dist ≠ 0 := ne_of_gt h0
  have hnn : (b.x - a.x) / dist * ((b.x - a.x) / dist)
      + (b.y - a.y) / dist * ((b.y - a.y) / dist) = 1 := by
    rw [div_mul_div_comm, div_mul_div_comm, div_add_div_same, ← hsq,
      div_self (mul_ne_zero hne hne)]
  have hps : pairStep sq a b = collidePair dist a b := by
    rw [pairStep, ← hdist]
    simp [hpa, hpb]
  rw [hps, collidePair]
  rw [if_pos ⟨h0, hlt⟩]
  dsimp only
  split_ifs with hr
  · refine ⟨⟨by ring, by ring⟩, fun _ => ⟨?_, ?_⟩, fun hge => absurd hr (not_lt.mpr hge)⟩
    · linear_combination
        ((b.vx - a.vx) * ((b.x - a.x) / dist)
          + (b.vy - a.vy) * ((b.y - a.y) / dist)) * hnn
    · linear_combination
        (-((b.vx - a.vx) * ((b.x - a.x) / dist)
          + (b.vy - a.vy) * ((b.y - a.y) / dist))) * hnn
  · exact ⟨⟨by ring, by ring⟩, fun hlt0 => absurd hlt0 hr,
      fun _ => ⟨rfl, rfl, rfl, rfl⟩⟩

/-- Witness for C2: two overlapping approaching balls 15 units apart (9-12-15
triangle), the first moving at (2, 0) into the second at rest. -/
theorem c2_pair_collision_witness :
    (((pairStep sqC2 cwA cwB).1.vx + (pairStep sqC2 cwA cwB).2.vx
        = cwA.vx + cwB.vx ∧
      (pairStep sqC2 cwA cwB).1.vy + (pairStep sqC2 cwA cwB).2.vy
        = cwA.vy + cwB.vy) ∧
    ((0 : ℚ) - 2 * (12/15) + ((0 : ℚ) - 0) * (9/15) < 0 →
      (pairStep sqC2 cwA cwB).1.vx * (12/15)
          + (pairStep sqC2 cwA cwB).1.vy * (9/15)
        = cwB.vx * (12/15) + cwB.vy * (9/15) ∧
      (pairStep sqC2 cwA cwB).2.vx * (12/15)
          + (pairStep sqC2 cwA cwB).2.vy * (9/15)
        = cwA.vx * (12/15) + cwA.vy * (9/15)) ∧
    (0 ≤ (0 : ℚ) - 2 * (12/15) + ((0 : ℚ) - 0) * (9/15) →
      (pairStep sqC2 cwA cwB).1.vx = cwA.vx ∧
      (pairStep sqC2 cwA cwB).1.vy = cwA.vy ∧
      (pairStep sqC2 cwA cwB).2.vx = cwB.vx ∧
      (pairStep sqC2 cwA cwB).2.vy = cwB.vy)) ∧ (15 : ℚ) < cwA.r + cwB.r := by
  constructor
  · have h := c2_pair_collision sqC2 cwA cwB 15 (12/15) (9/15)
      ((0 : ℚ) - 2 * (12/15) + ((0 : ℚ) - 0) * (9/15))
      (by norm_num [sqC2, cwA, cwB]) (by norm_num [cwA, cwB]) rfl rfl
      (by norm_num) (by norm_num [cwA, cwB]) (by norm_num [cwA, cwB])
      (by norm_num [cwA, cwB]) (by norm_num [cwA, cwB])
    exact h
  · norm_num [cwA, cwB]

/-- C9: `setupBalls` (the body of every rack reset) yields exactly 16 balls,
none pocketed, all with velocity (0, 0): the cue ball first, at
(0.25·width, height/2) = (200, 200), and 15 object balls in a 5-row
triangular rack whose rows sit at x = 520 + row·21.5 starting from the anchor
x = 0.65·width = 520 with each row vertically spread around the anchor height
200 by the code's `startY - offsetY/2 + i·2r` formula. -/
theorem c9_reset_rack_layout :
    setupBalls.length = 16 ∧
    (∀ b ∈ setupBalls, b.pocketed = false ∧ b.vx = 0 ∧ b.vy = 0) ∧
    setupBalls.map (fun b => b.isCue)
      = [true, false, false, false, false, false, false, false, false, false,
         false, false, false, false, false, false] ∧
    setupBalls.map (fun b => (b.x, b.y))
      = [(200, 200),
         (520, 180), (520, 200), (520, 220), (520, 240), (520, 260),
         (1083/2, 185), (1083/2, 205), (1083/2, 225), (1083/2, 245),
         (563, 190), (563, 210), (563, 230),
         (1169/2, 195), (1169/2, 215),
         (606, 200)] ∧
    width * 0.25 = 200 ∧ width * 0.65 = 520 ∧ height / 2 = 200 := by
  have h5 : List.range 5 = [0, 1, 2, 3, 4] := rfl
  have h4 : List.range 4 = [0, 1, 2, 3] := rfl
  have h3 : List.range 3 = [0, 1, 2] := rfl
  have h2 : List.range 2 = [0, 1] := rfl
  have h1 : List.range 1 = [0] := rfl
  refine ⟨?_, ?_, ?_, ?_, by norm_num [width], by norm_num [width],
    by norm_num [height]⟩
  · norm_num [setupBalls, h5, h4, h3, h2, h1]
  · intro b hb
    simp only [setupBalls, h5, h4, h3, h2, h1, List.flatMap_cons,
      List.flatMap_nil, List.map_cons, List.map_nil, List.mem_cons,
      List.append_assoc, List.cons_append, List.nil_append,
      List.not_mem_nil, or_false] at hb
    rcases hb with hb | hb | hb | hb | hb | hb | hb | hb | hb | hb | hb | hb
      | hb | hb | hb | hb <;> subst hb <;> exact ⟨rfl, rfl, rfl⟩
  · norm_num [setupBalls, h5, h4, h3, h2, h1, createBall]
  · norm_num [setupBalls, h5, h4, h3, h2, h1, createBall, width, height,
      ballRadius, Prod.ext_iff]

/-- C1: the claim asserts the physics core has no fatal conditions — that
`update` completes normally on every reachable state, in particular on states
where some ball satisfies the pocket capture condition
`distanceToPocketCenter + ballRadius ≤ rCapture`.  The code violates this:
for any square-root behaviour consistent with the two consulted values (both
hypotheses hold for the true square roots, which are about 395.9 and exactly
10.1), a ball that glides through the top-middle pocket mouth reaches the
capture branch, which reads the undefined identifier `h` (src/game.js line
644) and throws a ReferenceError: `update` faults instead of completing. -/
theorem c1_capture_state_faults (sq : ℚ → ℚ) (f : ℚ)
    (h1 : 44 < sq (3918568/25)) (h2 : sq (10201/100) ≤ 12) :
    update sq f [c1Ball] = Except.error JsError.refErrorH := by
  have hA : ¬ sq (3918568/25) ≤ 44 := not_le.mpr h1
  have hB : ¬ sq (3918568/25) + 10 ≤ 22 := by
    intro h
    have := h1
    linarith
  have hC : sq (10201/100) + 10 ≤ 22 := by linarith
  norm_num [update, integrate, railStep, railStepX, railStepY, collidePass,
    collidePassGo, collideWithAll, pairStep, collidePair, pocketPhase,
    pocketLoop, pockets, createPockets, isInMouthForSide, sideMatch,
    distPointToSegmentSq, mouthMarginSq, mouthMargin, minX, maxX, minY, maxY,
    width, height, rail, ballRadius, pocketRadius, c1Ball, hA, hB, hC]

/-- Witness for C1 at the concrete oracle `sqC1`. -/
theorem c1_capture_state_faults_witness :
    update sqC1 1 [c1Ball] = Except.error JsError.refErrorH :=
  c1_capture_state_faults sqC1 1 (by norm_num [sqC1]) (by norm_num [sqC1])

/-- C4: the integration step of `update` moves every non-pocketed ball by
exactly its pre-update velocity (position += velocity) and leaves the
velocity unchanged; `integrate` takes no time-scale argument at all —
mirroring src/game.js lines 473-478, where the loop body never mentions
`dtFactor` — while the frame loop's time-scale (line 848) is clamped to
[0.25, 2.5] and enters `update` only through the friction factor
`Math.pow(friction, dtFactor)` of line 699 (the `f` argument of `update`). -/
theorem c4_integration_unit_step (b : Ball) (raw : ℚ) (hb : b.pocketed = false) :
    (integrate b).x = b.x + b.vx ∧ (integrate b).y = b.y + b.vy ∧
    (integrate b).vx = b.vx ∧ (integrate b).vy = b.vy ∧
    1/4 ≤ dtFactorOf raw ∧ dtFactorOf raw ≤ 5/2 := by
  refine ⟨by simp [integrate, hb], by simp [integrate, hb],
    by simp [integrate, hb], by simp [integrate, hb], ?_, ?_⟩
  · rw [dtFactorOf]
    exact le_max_of_le_left (by norm_num)
  · rw [dtFactorOf]
    exact max_le (by norm_num) ((min_le_left _ _).trans (by norm_num))

/-- Witness for C4 on a concrete moving ball and raw time-scale 3. -/
theorem c4_integration_unit_step_witness :
    (integrate c4Ball).x = c4Ball.x + c4Ball.vx ∧
    (integrate c4Ball).y = c4Ball.y + c4Ball.vy ∧
    (integrate c4Ball).vx = c4Ball.vx ∧ (integrate c4Ball).vy = c4Ball.vy ∧
    1/4 ≤ dtFactorOf 3 ∧ dtFactorOf 3 ≤ 5/2 :=
  c4_integration_unit_step c4Ball 3 rfl

/-- C7: releasing an aiming gesture (src/game.js lines 315-343).  With
`pullLen` the value `Math.sqrt(pullX² + pullY²)`: a pull distance (clamped to
160) of at most 4 is a no-op — the cue ball is returned unchanged, power is
set to 0, no shot starts; otherwise an impulse of magnitude
`(pullDist/160)·14` pointing opposite the pull vector is added to the cue
ball's velocity and a shot starts; in particular a 160-unit drag on a resting
cue ball yields velocity `-pull·14/160`, of speed exactly 14. -/
theorem c7_pointer_shot (pullLen asX asY pX pY : ℚ) (cue : Ball)
    (res : ShotResult)
    (hres : res = onPointerUpCore pullLen asX asY pX pY cue)
    (hsq : pullLen * pullLen =
      (pX - asX) * (pX - asX) + (pY - asY) * (pY - asY)) :
    (min pullLen 160 ≤ 4 →
      res = { cue := cue, power := 0, shotInProgress := false }) ∧
    (4 < min pullLen 160 → cue.pocketed = false →
      (res.cue.vx - cue.vx) * (res.cue.vx - cue.vx) +
          (res.cue.vy - cue.vy) * (res.cue.vy - cue.vy) =
        (min pullLen 160 / 160 * 14) * (min pullLen 160 / 160 * 14) ∧
      (res.cue.vx - cue.vx) * pullLen = -(pX - asX) * (min pullLen 160 / 160 * 14) ∧
      (res.cue.vy - cue.vy) * pullLen = -(pY - asY) * (min pullLen 160 / 160 * 14) ∧
      res.shotInProgress = true) ∧
    (pullLen = 160 → cue.vx = 0 → cue.vy = 0 → cue.pocketed = false →
      res.cue.vx = -(pX - asX) * 14 / 160 ∧
      res.cue.vy = -(pY - asY) * 14 / 160 ∧
      res.cue.vx * res.cue.vx + res.cue.vy * res.cue.vy = 196) := by
  subst hres
  refine ⟨?_, ?_, ?_⟩
  · intro hle
    rw [onPointerUpCore, if_neg (by
      rintro ⟨hgt, -⟩
      linarith)]
    norm_num [clampPower]
  · intro hgt hcue
    have hlpos : 0 < pullLen := lt_of_lt_of_le (by linarith) (min_le_left _ _)
    have hlne : pullLen ≠ 0 := ne_of_gt hlpos
    have hval : onPointerUpCore pullLen asX asY pX pY cue =
        { cue := { cue with
            vx := cue.vx + -(pX - asX) / pullLen * (min pullLen 160 / 160 * 14),
            vy := cue.vy + -(pY - asY) / pullLen * (min pullLen 160 / 160 * 14) },
          power := clampPower (min pullLen 160 / 160),
          shotInProgress := true } := by
      rw [onPointerUpCore, if_pos ⟨hgt, hcue⟩]
      simp only [if_neg hlne]
    rw [hval]
    have e1 : (cue.vx + -(pX - asX) / pullLen * (min pullLen 160 / 160 * 14)
        - cue.vx) * pullLen = -(pX - asX) * (min pullLen 160 / 160 * 14) := by
      field_simp
      ring
    have e2 : (cue.vy + -(pY - asY) / pullLen * (min pullLen 160 / 160 * 14)
        - cue.vy) * pullLen = -(pY - asY) * (min pullLen 160 / 160 * 14) := by
      field_simp
      ring
    refine ⟨?_, e1, e2, rfl⟩
    have key : ((cue.vx + -(pX - asX) / pullLen * (min pullLen 160 / 160 * 14)
          - cue.vx) * (cue.vx + -(pX - asX) / pullLen * (min pullLen 160 / 160 * 14)
          - cue.vx)
        + (cue.vy + -(pY - asY) / pullLen * (min pullLen 160 / 160 * 14)
          - cue.vy) * (cue.vy + -(pY - asY) / pullLen * (min pullLen 160 / 160 * 14)
          - cue.vy)) * (pullLen * pullLen)
        = ((min pullLen 160 / 160 * 14) * (min pullLen 160 / 160 * 14))
          * (pullLen * pullLen) := by
      calc ((cue.vx + -(pX - asX) / pullLen * (min pullLen 160 / 160 * 14) - cue.vx)
              * (cue.vx + -(pX - asX) / pullLen * (min pullLen 160 / 160 * 14) - cue.vx)
            + (cue.vy + -(pY - asY) / pullLen * (min pullLen 160 / 160 * 14) - cue.vy)
              * (cue.vy + -(pY - asY) / pullLen * (min pullLen 160 / 160 * 14) - cue.vy))
            * (pullLen * pullLen)
          = ((cue.vx + -(pX - asX) / pullLen * (min pullLen 160 / 160 * 14) - cue.vx)
              * pullLen)
            * ((cue.vx + -(pX - asX) / pullLen * (min pullLen 160 / 160 * 14) - cue.vx)
              * pullLen)
            + ((cue.vy + -(pY - asY) / pullLen * (min pullLen 160 / 160 * 14) - cue.vy)
              * pullLen)
            * ((cue.vy + -(pY - asY) / pullLen * (min pullLen 160 / 160 * 14) - cue.vy)
              * pullLen) := by ring
        _ = (-(pX - asX) * (min pullLen 160 / 160 * 14))
              * (-(pX - asX) * (min pullLen 160 / 160 * 14))
            + (-(pY - asY) * (min pullLen 160 / 160 * 14))
              * (-(pY - asY) * (min pullLen 160 / 160 * 14)) := by rw [e1, e2]
        _ = ((min pullLen 160 / 160 * 14) * (min pullLen 160 / 160 * 14))
            * ((pX - asX) * (pX - asX) + (pY - asY) * (pY - asY)) := by ring
        _ = ((min pullLen 160 / 160 * 14) * (min pullLen 160 / 160 * 14))
            * (pullLen * pullLen) := by rw [← hsq]
    exact mul_right_cancel₀ (mul_ne_zero hlne hlne) key
  · intro h160 hvx hvy hcue
    subst h160
    have hS : (pX - asX) * (pX - asX) + (pY - asY) * (pY - asY) = 25600 := by
      linarith
    have h160ne : (160 : ℚ) ≠ 0 := by norm_num
    have hval : onPointerUpCore 160 asX asY pX pY cue =
        { cue := { cue with
            vx := cue.vx + -(pX - asX) / 160 * (min (160 : ℚ) 160 / 160 * 14),
            vy := cue.vy + -(pY - asY) / 160 * (min (160 : ℚ) 160 / 160 * 14) },
          power := clampPower (min (160 : ℚ) 160 / 160),
          shotInProgress := true } := by
      rw [onPointerUpCore, if_pos (by norm_num [hcue])]
      simp only [if_neg h160ne]
    rw [hval]
    have f1 : cue.vx + -(pX - asX) / 160 * (min (160 : ℚ) 160 / 160 * 14)
        = -(pX - asX) * 14 / 160 := by
      rw [hvx]
      norm_num
      ring
    have f2 : cue.vy + -(pY - asY) / 160 * (min (160 : ℚ) 160 / 160 * 14)
        = -(pY - asY) * 14 / 160 := by
      rw [hvy]
      norm_num
      ring
    refine ⟨f1, f2, ?_⟩
    show (cue.vx + -(pX - asX) / 160 * (min (160 : ℚ) 160 / 160 * 14))
        * (cue.vx + -(pX - asX) / 160 * (min (160 : ℚ) 160 / 160 * 14))
      + (cue.vy + -(pY - asY) / 160 * (min (160 : ℚ) 160 / 160 * 14))
        * (cue.vy + -(pY - asY) / 160 * (min (160 : ℚ) 160 / 160 * 14)) = 196
    rw [f1, f2]
    field_simp
    linear_combination 196 * hS

/-- Witness for C7: a pure 160-unit leftward drag from (160, 0) to the anchor
(0, 0) on the resting cue ball. -/
theorem c7_pointer_shot_witness :
    (min (160 : ℚ) 160 ≤ 4 →
      onPointerUpCore 160 0 0 160 0 cue7 =
        { cue := cue7, power := 0, shotInProgress := false }) ∧
    (4 < min (160 : ℚ) 160 → cue7.pocketed = false →
      ((onPointerUpCore 160 0 0 160 0 cue7).cue.vx - cue7.vx) *
          ((onPointerUpCore 160 0 0 160 0 cue7).cue.vx - cue7.vx) +
          ((onPointerUpCore 160 0 0 160 0 cue7).cue.vy - cue7.vy) *
            ((onPointerUpCore 160 0 0 160 0 cue7).cue.vy - cue7.vy) =
        (min (160 : ℚ) 160 / 160 * 14) * (min (160 : ℚ) 160 / 160 * 14) ∧
      ((onPointerUpCore 160 0 0 160 0 cue7).cue.vx - cue7.vx) * 160 =
        -((160 : ℚ) - 0) * (min (160 : ℚ) 160 / 160 * 14) ∧
      ((onPointerUpCore 160 0 0 160 0 cue7).cue.vy - cue7.vy) * 160 =
        -((0 : ℚ) - 0) * (min (160 : ℚ) 160 / 160 * 14) ∧
      (onPointerUpCore 160 0 0 160 0 cue7).shotInProgress = true) ∧
    ((160 : ℚ) = 160 → cue7.vx = 0 → cue7.vy = 0 → cue7.pocketed = false →
      (onPointerUpCore 160 0 0 160 0 cue7).cue.vx = -((160 : ℚ) - 0) * 14 / 160 ∧
      (onPointerUpCore 160 0 0 160 0 cue7).cue.vy = -((0 : ℚ) - 0) * 14 / 160 ∧
      (onPointerUpCore 160 0 0 160 0 cue7).cue.vx *
          (onPointerUpCore 160 0 0 160 0 cue7).cue.vx +
          (onPointerUpCore 160 0 0 160 0 cue7).cue.vy *
            (onPointerUpCore 160 0 0 160 0 cue7).cue.vy = 196) :=
  c7_pointer_shot 160 0 0 160 0 cue7 _ rfl (by norm_num)

/-- C10: the Space branch of `onKeyDown` (src/game.js lines 368-387) with
zero (or negative) accumulated keyboard power is not a no-op: when all balls
are stopped, no shot is in progress and the cue ball is not pocketed, a
keyboard power ≤ 0 defaults to 0.4 and the impulse 0.4·14 = 5.6 along the
aim direction (cosA, sinA) is added to the cue ball's velocity, starting a
shot — unlike the pointer path, where a below-threshold gesture cancels with
zero power. -/
theorem c10_keyboard_default_power (cosA sinA kp power0 : ℚ) (bs : List Ball)
    (cue : Ball) (hstop : allBallsStopped bs = true)
    (hcue : cue.pocketed = false) (hkp : kp ≤ 0) :
    spaceShot cosA sinA kp bs false cue power0 =
      { cue := { cue with vx := cue.vx + cosA * (28/5),
                          vy := cue.vy + sinA * (28/5) },
        keyboardPower := 2/5, power := 2/5, shotInProgress := true } ∧
    (2/5 : ℚ) * 14 = 28/5 := by
  constructor
  · rw [spaceShot, hstop, hcue]
    norm_num [hkp, clampPower]
  · norm_num

/-- Witness for C10: Space pressed with aim angle 0 (direction (1, 0)),
accumulated power 0, on the lone resting cue ball. -/
theorem c10_keyboard_default_power_witness :
    spaceShot 1 0 0 [cue10] false cue10 0 =
      { cue := { cue10 with vx := cue10.vx + 1 * (28/5),
                            vy := cue10.vy + 0 * (28/5) },
        keyboardPower := 2/5, power := 2/5, shotInProgress := true } ∧
    (2/5 : ℚ) * 14 = 28/5 :=
  c10_keyboard_default_power 1 0 0 0 [cue10] cue10
    (by norm_num [allBallsStopped, cue10, stopEpsilon]) rfl le_rfl

/-- `BallKept` is reflexive. -/
theorem ballKept_rfl (a : Ball) : BallKept a a := ⟨fun _ => rfl, rfl⟩

/-- `BallKept` is transitive. -/
theorem ballKept_trans {a b c : Ball} (h1 : BallKept a b) (h2 : BallKept b c) :
    BallKept a c := by
  obtain ⟨h1e, h1f⟩ := h1
  obtain ⟨h2e, h2f⟩ := h2
  refine ⟨fun ha => ?_, h2f.trans h1f⟩
  have hb : b = a := h1e ha
  have hbp : b.pocketed = true := h1f.trans ha
  have hc : c = b := h2e hbp
  rw [hc, hb]

/-- `Forall₂ BallKept` composes. -/
theorem forall2_ballKept_trans : ∀ {l1 l2 l3 : List Ball},
    List.Forall₂ BallKept l1 l2 → List.Forall₂ BallKept l2 l3 →
    List.Forall₂ BallKept l1 l3 := by
  intro l1 l2 l3 h12
  induction h12 generalizing l3 with
  | nil =>
    intro h23
    cases h23
    exact List.Forall₂.nil
  | cons hab htl ih =>
    intro h23
    cases h23 with
    | cons hbc htl2 => exact List.Forall₂.cons (ballKept_trans hab hbc) (ih htl2)

/-- A pointwise phase that fixes pocketed balls and preserves the flag gives
`Forall₂ BallKept` on mapped lists. -/
theorem map_kept (g : Ball → Ball) (hg1 : ∀ b, b.pocketed = true → g b = b)
    (hg2 : ∀ b, (g b).pocketed = b.pocketed) :
    ∀ l : List Ball, List.Forall₂ BallKept l (l.map g) := by
  intro l
  induction l with
  | nil => exact List.Forall₂.nil
  | cons b tl ih => exact List.Forall₂.cons ⟨hg1 b, hg2 b⟩ ih

/-- `integrate` fixes pocketed balls. -/
theorem integrate_of_pocketed (b : Ball) (hb : b.pocketed = true) :
    integrate b = b := by
  simp [integrate, hb]

/-- `integrate` never changes the pocketed flag. -/
theorem integrate_pocketed (b : Ball) : (integrate b).pocketed = b.pocketed := by
  rw [integrate]
  split_ifs <;> rfl

/-- `integrate` never changes the velocity. -/
theorem integrate_vel (b : Ball) :
    (integrate b).vx = b.vx ∧ (integrate b).vy = b.vy := by
  rw [integrate]
  split_ifs <;> exact ⟨rfl, rfl⟩

/-- The horizontal wall blocks never change the pocketed flag. -/
theorem railStepX_pocketed (b : Ball) : (railStepX b).pocketed = b.pocketed := by
  simp only [railStepX]
  split_ifs <;> rfl

/-- The vertical wall blocks never change the pocketed flag. -/
theorem railStepY_pocketed (b : Ball) : (railStepY b).pocketed = b.pocketed := by
  simp only [railStepY]
  split_ifs <;> rfl

/-- `railStep` fixes pocketed balls. -/
theorem railStep_of_pocketed (b : Ball) (hb : b.pocketed = true) :
    railStep b = b := by
  simp [railStep, hb]

/-- `railStep` never changes the pocketed flag. -/
theorem railStep_pocketed (b : Ball) : (railStep b).pocketed = b.pocketed := by
  rw [railStep]
  split_ifs with h
  · rfl
  · rw [railStepY_pocketed, railStepX_pocketed]

/-- The horizontal wall blocks keep a zero velocity exactly zero. -/
theorem railStepX_zero_vel (b : Ball) (hvx : b.vx = 0) (hvy : b.vy = 0) :
    (railStepX b).vx = 0 ∧ (railStepX b).vy = 0 := by
  simp only [railStepX]
  split_ifs <;> simp [hvx, hvy]

/-- The vertical wall blocks keep a zero velocity exactly zero. -/
theorem railStepY_zero_vel (b : Ball) (hvx : b.vx = 0) (hvy : b.vy = 0) :
    (railStepY b).vx = 0 ∧ (railStepY b).vy = 0 := by
  simp only [railStepY]
  split_ifs <;> simp [hvx, hvy]

/-- `railStep` keeps a zero velocity exactly zero (reflection negates
components, and -0 = 0). -/
theorem railStep_zero_vel (b : Ball) (hvx : b.vx = 0) (hvy : b.vy = 0) :
    (railStep b).vx = 0 ∧ (railStep b).vy = 0 := by
  rw [railStep]
  split_ifs with h
  · exact ⟨hvx, hvy⟩
  · have hx := railStepX_zero_vel b hvx hvy
    exact railStepY_zero_vel (railStepX b) hx.1 hx.2

/-- `frictionStep` fixes pocketed balls. -/
theorem frictionStep_of_pocketed (f : ℚ) (b : Ball) (hb : b.pocketed = true) :
    frictionStep f b = b := by
  simp [frictionStep, hb]

/-- `frictionStep` never changes the pocketed flag. -/
theorem frictionStep_pocketed (f : ℚ) (b : Ball) :
    (frictionStep f b).pocketed = b.pocketed := by
  rw [frictionStep]
  split_ifs <;> rfl

/-- `frictionStep` keeps a zero velocity exactly zero: 0·f = 0 is below the
stop epsilon and snaps to 0. -/
theorem frictionStep_zero_vel (f : ℚ) (b : Ball) (hvx : b.vx = 0)
    (hvy : b.vy = 0) :
    (frictionStep f b).vx = 0 ∧ (frictionStep f b).vy = 0 := by
  rw [frictionStep]
  split_ifs with h
  · exact ⟨hvx, hvy⟩
  · constructor <;> simp [hvx, hvy, stopEpsilon] <;> norm_num

/-- `collidePair` never changes the first ball's pocketed flag. -/
theorem collidePair_fst_pocketed (d : ℚ) (a b : Ball) :
    (collidePair d a b).1.pocketed = a.pocketed := by
  simp only [collidePair]
  split_ifs <;> rfl

/-- `collidePair` never changes the second ball's pocketed flag. -/
theorem collidePair_snd_pocketed (d : ℚ) (a b : Ball) :
    (collidePair d a b).2.pocketed = b.pocketed := by
  simp only [collidePair]
  split_ifs <;> rfl

/-- A pair with a pocketed member is skipped by the collision loop. -/
theorem pairStep_of_pocketed (sq : ℚ → ℚ) (a b : Ball)
    (h : a.pocketed = true ∨ b.pocketed = true) :
    pairStep sq a b = (a, b) := by
  rcases h with h | h <;> rw [pairStep, if_pos (by simp [h])]

/-- `pairStep` never changes the first ball's pocketed flag. -/
theorem pairStep_fst_pocketed (sq : ℚ → ℚ) (a b : Ball) :
    (pairStep sq a b).1.pocketed = a.pocketed := by
  rw [pairStep]
  split_ifs with h
  · rfl
  · exact collidePair_fst_pocketed _ a b

/-- `pairStep` never changes the second ball's pocketed flag. -/
theorem pairStep_snd_pocketed (sq : ℚ → ℚ) (a b : Ball) :
    (pairStep sq a b).2.pocketed = b.pocketed := by
  rw [pairStep]
  split_ifs with h
  · rfl
  · exact collidePair_snd_pocketed _ a b

/-- The inner collision loop keeps pocketed balls unchanged and preserves all
flags: `BallKept` holds between the moving ball and its final state, and
pairwise along the rest of the list. -/
theorem collideWithAll_kept (sq : ℚ → ℚ) :
    ∀ (l : List Ball) (a : Ball),
      BallKept a (collideWithAll sq a l).1 ∧
      List.Forall₂ BallKept l (collideWithAll sq a l).2 := by
  intro l
  induction l with
  | nil => exact fun a => ⟨ballKept_rfl a, List.Forall₂.nil⟩
  | cons b tl ih =>
    intro a
    have hfst : BallKept a (pairStep sq a b).1 := by
      by_cases ha : a.pocketed = true
      · rw [pairStep_of_pocketed sq a b (Or.inl ha)]
        exact ballKept_rfl a
      · exact ⟨fun hx => absurd hx ha, pairStep_fst_pocketed sq a b⟩
    have hsnd : BallKept b (pairStep sq a b).2 := by
      by_cases hb : b.pocketed = true
      · rw [pairStep_of_pocketed sq a b (Or.inr hb)]
        exact ballKept_rfl b
      · exact ⟨fun hx => absurd hx hb, pairStep_snd_pocketed sq a b⟩
    obtain ⟨ih1, ih2⟩ := ih (pairStep sq a b).1
    exact ⟨ballKept_trans hfst ih1, List.Forall₂.cons hsnd ih2⟩

/-- The full collision pass relates to its input by `Forall₂ BallKept`. -/
theorem collidePassGo_kept (sq : ℚ → ℚ) :
    ∀ (n : ℕ) (l : List Ball), List.Forall₂ BallKept l (collidePassGo sq n l) := by
  intro n
  induction n with
  | zero =>
    intro l
    exact List.forall₂_same.mpr fun x _ => ballKept_rfl x
  | succ n ih =>
    intro l
    cases l with
    | nil => exact List.Forall₂.nil
    | cons a tl =>
      simp only [collidePassGo]
      obtain ⟨h1, h2⟩ := collideWithAll_kept sq tl a
      exact List.Forall₂.cons h1 (forall2_ballKept_trans h2 (ih _))

/-- A successful pocket loop never changes the pocketed flag (the only write
to it, line 670 of src/game.js, sits beyond the faulting read of `h`). -/
theorem pocketLoop_flag (sq : ℚ → ℚ) :
    ∀ (ps : List Pocket) (b b1 : Ball),
      pocketLoop sq ps b = Except.ok b1 → b1.pocketed = b.pocketed := by
  intro ps
  induction ps with
  | nil =>
    intro b b1 h
    simp only [pocketLoop] at h
    injection h with h
    rw [← h]
  | cons p ps ih =>
    intro b b1 h
    simp only [pocketLoop] at h
    split_ifs at h
    all_goals first
      | exact (ih _ _ h).trans rfl
      | simp at h

/-- The pocket phase of a successful update relates to its input by
`Forall₂ BallKept` (pocketed balls are skipped at line 601). -/
theorem pocketPhase_kept (sq : ℚ → ℚ) :
    ∀ (bs bs1 : List Ball),
      pocketPhase sq bs = Except.ok bs1 → List.Forall₂ BallKept bs bs1 := by
  intro bs
  induction bs with
  | nil =>
    intro bs1 h
    simp only [pocketPhase] at h
    injection h with h
    rw [← h]
    exact List.Forall₂.nil
  | cons b rest ih =>
    intro bs1 h
    rcases eqb : (if b.pocketed = true then Except.ok b
        else pocketLoop sq pockets b) with e | b1
    · rw [pocketPhase, eqb] at h
      simp at h
    · rcases eqr : pocketPhase sq rest with e | rest1
      · rw [pocketPhase, eqb, eqr] at h
        simp at h
      · rw [pocketPhase, eqb, eqr] at h
        injection h with h
        rw [← h]
        have hk : BallKept b b1 := by
          by_cases hb : b.pocketed = true
          · rw [if_pos hb] at eqb
            injection eqb with eqb
            rw [← eqb]
            exact ballKept_rfl b
          · rw [if_neg hb] at eqb
            exact ⟨fun hx => absurd hx hb, pocketLoop_flag sq pockets b b1 eqb⟩
        exact List.Forall₂.cons hk (ih rest1 eqr)

/-- A successful `update` keeps every pocketed ball entirely unchanged and
never changes any pocketed flag. -/
theorem update_kept (sq : ℚ → ℚ) (f : ℚ) (bs bs1 : List Ball)
    (h : update sq f bs = Except.ok bs1) : PocketedPreserved bs bs1 := by
  rw [update] at h
  rcases eqp : pocketPhase sq (collidePass sq ((bs.map integrate).map railStep))
    with e | bs4
  · rw [eqp] at h
    simp at h
  · rw [eqp] at h
    injection h with h
    rw [← h]
    have k1 : List.Forall₂ BallKept bs (bs.map integrate) :=
      map_kept integrate integrate_of_pocketed integrate_pocketed bs
    have k2 : List.Forall₂ BallKept (bs.map integrate)
        ((bs.map integrate).map railStep) :=
      map_kept railStep railStep_of_pocketed railStep_pocketed _
    have k3 : List.Forall₂ BallKept ((bs.map integrate).map railStep)
        (collidePass sq ((bs.map integrate).map railStep)) :=
      collidePassGo_kept sq _ _
    have k4 : List.Forall₂ BallKept
        (collidePass sq ((bs.map integrate).map railStep)) bs4 :=
      pocketPhase_kept sq _ _ eqp
    have k5 : List.Forall₂ BallKept bs4 (bs4.map (frictionStep f)) :=
      map_kept (frictionStep f) (frictionStep_of_pocketed f)
        (frictionStep_pocketed f) bs4
    exact forall2_ballKept_trans
      (forall2_ballKept_trans (forall2_ballKept_trans k1 k2)
        (forall2_ballKept_trans k3 k4)) k5

/-- `Forall₂ BallKept` carries the invariant "pocketed balls have zero
velocity" forward. -/
theorem forall2_ballKept_pock_vel {l l1 : List Ball}
    (h : List.Forall₂ BallKept l l1)
    (hl : ∀ x ∈ l, x.pocketed = true → x.vx = 0 ∧ x.vy = 0) :
    ∀ x ∈ l1, x.pocketed = true → x.vx = 0 ∧ x.vy = 0 := by
  induction h with
  | nil => exact fun x hx => absurd hx (List.not_mem_nil x)
  | cons hab htl ih =>
    intro x hx hpx
    rcases List.mem_cons.mp hx with hx | hx
    · subst hx
      obtain ⟨he, hf⟩ := hab
      have := he (hf ▸ hpx)
      rw [this]
      exact hl _ (List.mem_cons_self _ _) (hf ▸ hpx)
    · exact ih (fun y hy => hl y (List.mem_cons_of_mem _ hy)) x hx hpx

/-- C3: pocketed balls are excluded from every phase of `update` and stay
pocketed.  Per-ball: `integrate`, `railStep` and `frictionStep` fix any
pocketed ball, every collision pair containing it is skipped, and the pocket
phase skips it.  List-wide: a successful `update` relates input and output by
`PocketedPreserved` — each pocketed input ball reappears entirely unchanged
(same position, velocity, flags) and no pocketed flag ever changes, so a
pocketed non-cue ball remains pocketed until the ball list is rebuilt by a
rack reset (`setupBalls`); within `update` nothing un-pockets any ball (the
cue-ball respot lives in a `setTimeout` callback outside `update`).
Consequently the invariant "every pocketed ball has velocity (0,0)" is
preserved by every successful `update`. -/
theorem c3_pocketed_excluded (sq : ℚ → ℚ) (f : ℚ) (b : Ball)
    (bs bs1 : List Ball) (hup : update sq f bs = Except.ok bs1) :
    (b.pocketed = true →
      integrate b = b ∧ railStep b = b ∧ frictionStep f b = b ∧
      (∀ c : Ball, pairStep sq b c = (b, c) ∧ pairStep sq c b = (c, b)) ∧
      (if b.pocketed = true then Except.ok b
        else pocketLoop sq pockets b) = Except.ok b) ∧
    PocketedPreserved bs bs1 ∧
    ((∀ x ∈ bs, x.pocketed = true → x.vx = 0 ∧ x.vy = 0) →
      (∀ x ∈ bs1, x.pocketed = true → x.vx = 0 ∧ x.vy = 0)) := by
  have hkept := update_kept sq f bs bs1 hup
  refine ⟨fun hb => ⟨integrate_of_pocketed b hb, railStep_of_pocketed b hb,
    frictionStep_of_pocketed f b hb, fun c =>
      ⟨pairStep_of_pocketed sq b c (Or.inl hb),
       pairStep_of_pocketed sq c b (Or.inr hb)⟩,
    if_pos hb⟩, hkept, fun hz => forall2_ballKept_pock_vel hkept hz⟩

/-- Witness for C3: a pocketed ball with stale velocity passes through a full
successful `update` unchanged. -/
theorem c3_pocketed_excluded_witness :
    (pkBall.pocketed = true →
      integrate pkBall = pkBall ∧ railStep pkBall = pkBall ∧
      frictionStep (1/2) pkBall = pkBall ∧
      (∀ c : Ball, pairStep sqCalm pkBall c = (pkBall, c) ∧
        pairStep sqCalm c pkBall = (c, pkBall)) ∧
      (if pkBall.pocketed = true then Except.ok pkBall
        else pocketLoop sqCalm pockets pkBall) = Except.ok pkBall) ∧
    PocketedPreserved [pkBall] [pkBall] ∧
    ((∀ x ∈ [pkBall], x.pocketed = true → x.vx = 0 ∧ x.vy = 0) →
      (∀ x ∈ [pkBall], x.pocketed = true → x.vx = 0 ∧ x.vy = 0)) :=
  c3_pocketed_excluded sqCalm (1/2) pkBall [pkBall] [pkBall]
    (by norm_num [update, integrate, railStep, railStepX, railStepY,
      collidePass, collidePassGo, collideWithAll, pairStep, collidePair,
      pocketPhase, pocketLoop, frictionStep, pkBall])

/-- If both members of a pair satisfy "non-pocketed implies velocity zero",
the collision loop body leaves both velocities untouched (the closing normal
velocity is 0, so no impulse is applied; only positions may separate). -/
theorem pairStep_zero_vel (sq : ℚ → ℚ) (a b : Ball)
    (ha : a.pocketed = false → a.vx = 0 ∧ a.vy = 0)
    (hb : b.pocketed = false → b.vx = 0 ∧ b.vy = 0) :
    (pairStep sq a b).1.vx = a.vx ∧ (pairStep sq a b).1.vy = a.vy ∧
    (pairStep sq a b).2.vx = b.vx ∧ (pairStep sq a b).2.vy = b.vy := by
  rw [pairStep]
  split_ifs with hp
  · exact ⟨rfl, rfl, rfl, rfl⟩
  · simp only [Bool.or_eq_true, not_or, Bool.not_eq_true] at hp
    obtain ⟨hvax, hvay⟩ := ha hp.1
    obtain ⟨hvbx, hvby⟩ := hb hp.2
    simp only [collidePair]
    split_ifs with hg hr
    · exfalso
      rw [hvax, hvay, hvbx, hvby] at hr
      norm_num at hr
    · exact ⟨rfl, rfl, rfl, rfl⟩
    · exact ⟨rfl, rfl, rfl, rfl⟩

/-- The inner collision loop preserves "non-pocketed implies velocity zero"
for the moving ball and along the rest of the list. -/
theorem collideWithAll_zero_vel (sq : ℚ → ℚ) :
    ∀ (l : List Ball) (a : Ball),
      (a.pocketed = false → a.vx = 0 ∧ a.vy = 0) →
      (∀ x ∈ l, x.pocketed = false → x.vx = 0 ∧ x.vy = 0) →
      ((collideWithAll sq a l).1.pocketed = false →
        (collideWithAll sq a l).1.vx = 0 ∧ (collideWithAll sq a l).1.vy = 0) ∧
      (∀ x ∈ (collideWithAll sq a l).2,
        x.pocketed = false → x.vx = 0 ∧ x.vy = 0) := by
  intro l
  induction l with
  | nil =>
    intro a ha _
    exact ⟨ha, fun x hx => absurd hx (List.not_mem_nil x)⟩
  | cons b tl ih =>
    intro a ha hl
    have hb := hl b (List.mem_cons_self b tl)
    have hv := pairStep_zero_vel sq a b ha hb
    have ha1 : (pairStep sq a b).1.pocketed = false →
        (pairStep sq a b).1.vx = 0 ∧ (pairStep sq a b).1.vy = 0 := by
      rw [pairStep_fst_pocketed, hv.1, hv.2.1]
      exact ha
    have hb1 : (pairStep sq a b).2.pocketed = false →
        (pairStep sq a b).2.vx = 0 ∧ (pairStep sq a b).2.vy = 0 := by
      rw [pairStep_snd_pocketed, hv.2.2.1, hv.2.2.2]
      exact hb
    obtain ⟨g1, g2⟩ := ih (pairStep sq a b).1 ha1
      (fun x hx => hl x (List.mem_cons_of_mem b hx))
    simp only [collideWithAll]
    refine ⟨g1, ?_⟩
    intro x hx
    rcases List.mem_cons.mp hx with hx | hx
    · subst hx
      exact hb1
    · exact g2 x hx

/-- The full collision pass preserves "non-pocketed implies velocity zero". -/
theorem collidePassGo_zero_vel (sq : ℚ → ℚ) :
    ∀ (n : ℕ) (l : List Ball),
      (∀ x ∈ l, x.pocketed = false → x.vx = 0 ∧ x.vy = 0) →
      ∀ x ∈ collidePassGo sq n l, x.pocketed = false → x.vx = 0 ∧ x.vy = 0 := by
  intro n
  induction n with
  | zero => exact fun l hl => hl
  | succ n ih =>
    intro l hl
    cases l with
    | nil => exact hl
    | cons a tl =>
      simp only [collidePassGo]
      obtain ⟨g1, g2⟩ := collideWithAll_zero_vel sq tl a
        (hl a (List.mem_cons_self a tl))
        (fun x hx => hl x (List.mem_cons_of_mem a hx))
      intro x hx
      rcases List.mem_cons.mp hx with hx | hx
      · subst hx
        exact g1
      · exact ih _ g2 x hx

/-- A successful pocket loop on a ball with velocity exactly (0, 0) returns
the ball unchanged: the funnel bias needs a positive toward-center velocity
component, which is 0. -/
theorem pocketLoop_rest (sq : ℚ → ℚ) :
    ∀ (ps : List Pocket) (b b1 : Ball),
      b.vx = 0 → b.vy = 0 → pocketLoop sq ps b = Except.ok b1 → b1 = b := by
  intro ps
  induction ps with
  | nil =>
    intro b b1 _ _ h
    simp only [pocketLoop] at h
    injection h with h
    exact h.symm
  | cons p ps ih =>
    intro b b1 hvx hvy h
    simp only [pocketLoop] at h
    rw [hvx, hvy] at h
    norm_num [ite_self] at h
    split_ifs at h with hcap
    all_goals first
      | exact ih _ _ hvx hvy h
      | simp at h

/-- The pocket phase of a successful update preserves "non-pocketed implies
velocity zero". -/
theorem pocketPhase_zero_vel (sq : ℚ → ℚ) :
    ∀ (bs bs1 : List Ball), pocketPhase sq bs = Except.ok bs1 →
      (∀ x ∈ bs, x.pocketed = false → x.vx = 0 ∧ x.vy = 0) →
      ∀ x ∈ bs1, x.pocketed = false → x.vx = 0 ∧ x.vy = 0 := by
  intro bs
  induction bs with
  | nil =>
    intro bs1 h _
    simp only [pocketPhase] at h
    injection h with h
    rw [← h]
    exact fun x hx => absurd hx (List.not_mem_nil x)
  | cons b rest ih =>
    intro bs1 h hl
    rcases eqb : (if b.pocketed = true then Except.ok b
        else pocketLoop sq pockets b) with e | b1
    · rw [pocketPhase, eqb] at h
      simp at h
    · rcases eqr : pocketPhase sq rest with e | rest1
      · rw [pocketPhase, eqb, eqr] at h
        simp at h
      · rw [pocketPhase, eqb, eqr] at h
        injection h with h
        rw [← h]
        have hb1 : b1.pocketed = false → b1.vx = 0 ∧ b1.vy = 0 := by
          by_cases hb : b.pocketed = true
          · rw [if_pos hb] at eqb
            injection eqb with eqb
            rw [← eqb]
            intro hfalse
            exact absurd (hfalse ▸ hb) (by simp)
          · rw [if_neg hb] at eqb
            have hbv := hl b (List.mem_cons_self b rest)
              (Bool.not_eq_true b.pocketed ▸ hb)
            have := pocketLoop_rest sq pockets b b1 hbv.1 hbv.2 eqb
            rw [this]
            exact fun _ => hbv
        intro x hx
        rcases List.mem_cons.mp hx with hx | hx
        · subst hx
          exact hb1
        · exact ih rest1 eqr (fun y hy => hl y (List.mem_cons_of_mem b hy)) x hx

/-- C6 (amended): a state in which every non-pocketed ball already has
velocity exactly (0, 0) stays that way through any `update` that completes
without the capture-branch ReferenceError — integration adds zero, rail
reflection negates zero, no collision impulse fires (closing velocity 0),
the funnel bias needs positive toward-center motion, and friction maps 0 to
0·f = 0, snapped to exactly 0 — so an all-stopped state never oscillates.
(The original claim's "from any state repeated update eventually reaches
all-stopped" is refuted by `c6_eventual_stop_counterexample`: a state whose
ball satisfies the capture condition makes every iterate of `update` throw
instead.) -/
theorem c6_stopped_stays_stopped (sq : ℚ → ℚ) (f : ℚ) (bs bs1 : List Ball)
    (h : update sq f bs = Except.ok bs1) (hz : allVelZero bs) :
    allVelZero bs1 := by
  rw [update] at h
  rcases eqp : pocketPhase sq (collidePass sq ((bs.map integrate).map railStep))
    with e | bs4
  · rw [eqp] at h
    simp at h
  · rw [eqp] at h
    injection h with h
    rw [← h]
    have z1 : ∀ x ∈ bs.map integrate, x.pocketed = false →
        x.vx = 0 ∧ x.vy = 0 := by
      intro x hx
      rcases List.mem_map.mp hx with ⟨b, hb, rfl⟩
      rw [integrate_pocketed, (integrate_vel b).1, (integrate_vel b).2]
      exact hz b hb
    have z2 : ∀ x ∈ (bs.map integrate).map railStep, x.pocketed = false →
        x.vx = 0 ∧ x.vy = 0 := by
      intro x hx
      rcases List.mem_map.mp hx with ⟨b, hb, rfl⟩
      rw [railStep_pocketed]
      intro hbp
      obtain ⟨hvx, hvy⟩ := z1 b hb hbp
      exact railStep_zero_vel b hvx hvy
    have z3 : ∀ x ∈ collidePass sq ((bs.map integrate).map railStep),
        x.pocketed = false → x.vx = 0 ∧ x.vy = 0 :=
      collidePassGo_zero_vel sq _ _ z2
    have z4 := pocketPhase_zero_vel sq _ _ eqp z3
    intro x hx
    rcases List.mem_map.mp hx with ⟨b, hb, rfl⟩
    rw [frictionStep_pocketed]
    intro hbp
    obtain ⟨hvx, hvy⟩ := z4 b hb hbp
    exact frictionStep_zero_vel f b hvx hvy

/-- Witness for the amended C6: a resting ball left of the playable bound is
clamped back to x = 32 with velocity still exactly (0, 0). -/
theorem c6_stopped_stays_stopped_witness : allVelZero [c6WBall1] :=
  c6_stopped_stays_stopped sqCalm (1/2) [c6WBall] [c6WBall1]
    (by norm_num [update, integrate, railStep, railStepX, railStepY,
      collidePass, collidePassGo, collideWithAll, pairStep, collidePair,
      pocketPhase, pocketLoop, frictionStep, pockets, createPockets,
      isInMouthForSide, sideMatch, distPointToSegmentSq, mouthMarginSq,
      mouthMargin, minX, maxX, minY, maxY, width, height, rail, ballRadius,
      pocketRadius, stopEpsilon, sqCalm, c6WBall, c6WBall1])
    (by
      intro x hx hp
      rw [List.mem_singleton.mp hx]
      norm_num [c6WBall])

/-- C6 counterexample: the claim "from any state, repeated update eventually
reaches a state where every non-pocketed ball's velocity is exactly (0, 0)"
is false on the code: from the concrete state `[c6Ball]` (one moving ball one
frame from the bottom-middle pocket), the state is not all-stopped, and the
first and every later iterate of `update` throws the capture-branch
ReferenceError (undefined `h`, src/game.js line 644) instead of producing a
state at all. -/
theorem c6_eventual_stop_counterexample :
    ¬ allVelZero [c6Ball] ∧
    update sqC6 1 [c6Ball] = Except.error JsError.refErrorH ∧
    iterateUpdate sqC6 1 1 [c6Ball] = Except.error JsError.refErrorH ∧
    iterateUpdate sqC6 1 5 [c6Ball] = Except.error JsError.refErrorH := by
  have hup : update sqC6 1 [c6Ball] = Except.error JsError.refErrorH := by
    norm_num [update, integrate, railStep, railStepX, railStepY, collidePass,
      collidePassGo, collideWithAll, pairStep, collidePair, pocketPhase,
      pocketLoop, pockets, createPockets, isInMouthForSide, sideMatch,
      distPointToSegmentSq, mouthMarginSq, mouthMargin, minX, maxX, minY, maxY,
      width, height, rail, ballRadius, pocketRadius, c6Ball, sqC6]
  refine ⟨?_, hup, ?_, ?_⟩
  · intro hz
    have := hz c6Ball (List.mem_singleton_self c6Ball) rfl
    norm_num [c6Ball] at this
  · simp [iterateUpdate, hup]
  · simp [iterateUpdate, hup]

/-- C8: the claim says a cue ball captured by a pocket schedules exactly one
400ms respot restoring it at (0.25·width, height/2) with zero velocity.  In
the code the respot `setTimeout` (src/game.js lines 676-683) sits inside the
capture branch AFTER the reads of the undefined identifiers `h` and `w`
(lines 644-645), so when the cue ball meets the capture condition `update`
throws a ReferenceError before any respot can be scheduled (and before
`b.pocketed` is even set): the respot code is unreachable.  Both
square-root hypotheses hold for the true roots (about 402 and 11.7477). -/
theorem c8_cue_capture_faults (sq : ℚ → ℚ) (f : ℚ)
    (h1 : 44 < sq (4038148/25)) (h2 : sq (13801/100) ≤ 12) :
    update sq f [c8Cue] = Except.error JsError.refErrorH := by
  have hA : ¬ sq (4038148/25) ≤ 44 := not_le.mpr h1
  have hB : ¬ sq (4038148/25) + 10 ≤ 22 := by
    intro h
    linarith
  have hC : sq (13801/100) + 10 ≤ 22 := by linarith
  norm_num [update, integrate, railStep, railStepX, railStepY, collidePass,
    collidePassGo, collideWithAll, pairStep, collidePair, pocketPhase,
    pocketLoop, pockets, createPockets, isInMouthForSide, sideMatch,
    distPointToSegmentSq, mouthMarginSq, mouthMargin, minX, maxX, minY, maxY,
    width, height, rail, ballRadius, pocketRadius, c8Cue, hA, hB, hC]

/-- Witness for C8 at the concrete oracle `sqC8`. -/
theorem c8_cue_capture_faults_witness :
    update sqC8 1 [c8Cue] = Except.error JsError.refErrorH :=
  c8_cue_capture_faults sqC8 1 (by norm_num [sqC8]) (by norm_num [sqC8])

end PoolGame
